import Mathlib

/-!
Verification development for the leetoffer ingestion pipeline.

The TypeScript pipeline is shallowly embedded as pure Lean functions:

* LeetParse models packages/leetcomp/src/parse.ts (Extraction Client):
  the Offer shape produced by the zod schema, the validity filter
  isValidOffer, and the retry / quota logic of parsePost.  The model
  call is abstracted as an oracle call : Nat → CallResult giving, for
  each attempt index, the outcome of the underlying HTTP request, and the
  JSON-block extraction plus schema validation is abstracted as
  decode : String → Option (List ParsedOffer) (both steps return null
  on failure in the source, which the Option models).

* The top level models packages/leetoffer/src/index.ts (Orchestrator and
  Store): the stamped offer record, the duplicate-key merge of run, the
  fetch-extract loop as runLoop over the list of posts yielded by the
  generator, and the persistence effects of saveData.

* getLatestPosts models the Post Source Client (refresh.ts): the remote
  listing is an explicit list of pages (the response for skip = 0, 50, ...)
  and the per-post body fetch is an oracle content : Nat → Option String
  (none models a thrown fetch error, which the source logs and skips).

JavaScript numbers that reach the modelled logic are integers in practice
and are modelled as Int; JS truthiness on them is (x ≠ 0), on strings
(s ≠ ""), and null/undefined are both Option.none.
-/

namespace LeetParse

/-- The visa_sponsorship enum of the zod schema: "yes" | "no". -/
inductive Visa where
  | yes
  | no
deriving DecidableEq, Repr

/-- The offer shape of ParsedOfferSchema in packages/leetcomp/src/parse.ts:
every field nullable and optional (both modelled by Option). -/
structure ParsedOffer where
  company : Option String
  role : Option String
  yoe : Option Int
  base_offer : Option Int
  total_offer : Option Int
  location : Option String
  visa_sponsorship : Option Visa
deriving DecidableEq, Repr

/-- JS truthiness of a nullable string: null, undefined and "" are falsy. -/
def truthyStr : Option String → Bool
  | none => false
  | some s => !(s == "")

/-- JS truthiness of a nullable number: null, undefined and 0 are falsy. -/
def truthyNum : Option Int → Bool
  | none => false
  | some n => !(n == 0)

/-- isValidOffer from parse.ts: hasCompany is the truthiness of company,
hasCompensation is the truthiness of (base_offer || total_offer), and the
offer is valid when either holds. -/
def isValidOffer (offer : ParsedOffer) : Bool :=
  let hasCompany := truthyStr offer.company
  let hasCompensation := truthyNum offer.base_offer || truthyNum offer.total_offer
  hasCompany || hasCompensation

end LeetParse

/-- The ParsedOffer interface of packages/leetoffer/src/index.ts: the
extracted fields plus the provenance fields stamped by run. -/
structure ParsedOffer where
  company : Option String
  role : Option String
  yoe : Option Int
  base_offer : Option Int
  total_offer : Option Int
  location : Option String
  visa_sponsorship : Option LeetParse.Visa
  post_id : Option String
  post_title : Option String
  post_date : Option String
  post_timestamp : Option Int
deriving DecidableEq, Repr

/-- JS template-literal rendering of a nullable string: null prints as
the four characters n u l l. -/
def jsShowStr : Option String → String
  | none => "null"
  | some s => s

/-- JS template-literal rendering of a nullable integer number. -/
def jsShowNum : Option Int → String
  | none => "null"
  | some n => toString n

/-- The duplicate-detection key built in run and saveOnExit
(index.ts lines 404-414 and 522-533): the single string
company - role - total_offer - post_id joined by hyphens. -/
def offerKey (offer : ParsedOffer) : String :=
  jsShowStr offer.company ++ "-" ++ jsShowStr offer.role ++ "-"
    ++ jsShowNum offer.total_offer ++ "-" ++ jsShowStr offer.post_id

/-- The filter of run (index.ts lines 530-533): a newly accumulated offer
is kept exactly when its key is not the key of any loaded existing offer.
The source materialises existing keys in a Set; membership in the list of
keys is the same test. -/
def uniqueNewOffers (existingOffers newOffers : List ParsedOffer) : List ParsedOffer :=
  newOffers.filter (fun offer => !((existingOffers.map offerKey).contains (offerKey offer)))

/-- The merged dataset of run (index.ts line 535): existing offers in their
original order followed by the new offers surviving the key filter. -/
def mergeOffers (existingOffers newOffers : List ParsedOffer) : List ParsedOffer :=
  existingOffers ++ uniqueNewOffers existingOffers newOffers

namespace LeetParse

/-- Outcome of one underlying model call, as seen by the catch block of
parsePost in parse.ts.  rateLimited models a thrown error with
status 429; its quotaFailure flag models the presence of a QuotaFailure
entry in errorDetails and retryDelay the parsed RetryInfo suggestion in
seconds (none when absent).  otherError models any other thrown error. -/
inductive CallResult where
  | success (text : String)
  | rateLimited (quotaFailure : Bool) (retryDelay : Option Nat)
  | otherError
deriving DecidableEq, Repr

/-- Result of parsePost: either the distinguished thrown QUOTA_EXCEEDED
error, or a normal return (null, or a non-empty list of valid offers). -/
inductive ParseResult where
  | quotaExceeded
  | result (offers : Option (List ParsedOffer))
deriving DecidableEq, Repr

/-- parsePost from packages/leetcomp/src/parse.ts.  The second component
of the value lists the delays slept (in seconds), one per retry actually
performed.  On success the raw text goes through decode (the fenced-JSON
extraction and schema validation, which each return null on failure) and
the isValidOffer filter.  On a 429 the delay is the server RetryInfo
suggestion if present, otherwise 2 ^ retryCount * 2 seconds; a
QuotaFailure detected on the very first attempt throws QUOTA_EXCEEDED,
otherwise up to 3 retries are made and then null is returned. -/
def parsePost (call : Nat → CallResult) (decode : String → Option (List ParsedOffer))
    (retryCount : Nat) : ParseResult × List Nat :=
  match call retryCount with
  | .success text =>
    match decode text with
    | none => (.result none, [])
    | some parsed =>
      let validOffers := parsed.filter isValidOffer
      if validOffers.length = 0 then (.result none, [])
      else (.result (some validOffers), [])
  | .rateLimited quotaFailure retryDelay =>
    let delaySeconds : Nat :=
      match retryDelay with
      | some d => d
      | none => 2 ^ retryCount * 2
    if quotaFailure = true ∧ retryCount = 0 then (.quotaExceeded, [])
    else if h : retryCount < 3 then
      let rest := parsePost call decode (retryCount + 1)
      (rest.1, delaySeconds :: rest.2)
    else (.result none, [])
  | .otherError => (.result none, [])
termination_by 3 - retryCount
decreasing_by omega

end LeetParse

/-- A post as listed by the forum category listing (refresh.ts): the node
fields used by the pipeline; creationDate is epoch seconds. -/
structure ListingPost where
  id : Nat
  title : String
  voteCount : Int
  commentCount : Nat
  viewCount : Nat
  creationDate : Nat
deriving DecidableEq, Repr

/-- A post as yielded by getLatestPosts: the listing fields plus the body
fetched per post; creation_date is epoch milliseconds (the source builds
new Date(creationDate * 1000)). -/
structure Post where
  id : Nat
  title : String
  content : String
  vote_count : Int
  comment_count : Nat
  view_count : Nat
  creation_date : Nat
deriving DecidableEq, Repr

/-- The body of the per-post for loop of getLatestPosts (refresh.ts lines
70-110) over the posts of one page, carrying totalFetched and
postsProcessed.  Returns the posts yielded from this page, the updated
counters, and the foundLastPost flag.  Checks per item, in source order:
the caller max-count, then the cursor bound (id at or below the cursor
stops the iteration), then the body fetch, whose failure skips just that
post. -/
def processPagePosts (content : Nat → Option String) (lastPostId : Option Nat)
    (maxPosts : Nat) :
    List ListingPost → Nat → Nat → List Post × Nat × Nat × Bool
  | [], totalFetched, postsProcessed => ([], totalFetched, postsProcessed, false)
  | lp :: rest, totalFetched, postsProcessed =>
    if maxPosts ≤ totalFetched then ([], totalFetched, postsProcessed, false)
    else if (match lastPostId with | some c => decide (lp.id ≤ c) | none => false) then
      ([], totalFetched, postsProcessed, true)
    else
      match content lp.id with
      | some body =>
        let restResult :=
          processPagePosts content lastPostId maxPosts rest (totalFetched + 1)
            (postsProcessed + 1)
        (⟨lp.id, lp.title, body, lp.voteCount, lp.commentCount, lp.viewCount,
            lp.creationDate * 1000⟩ :: restResult.1,
          restResult.2.1, restResult.2.2.1, restResult.2.2.2)
      | none => processPagePosts content lastPostId maxPosts rest totalFetched postsProcessed

/-- The page loop of getLatestPosts (refresh.ts lines 40-131).  pages is
the sequence of remote listing responses for skip = 0, 50, 100, ...; an
exhausted list models an empty response, which breaks the loop.  On the
first page only, the first element (the pinned post) is dropped.  After a
page the loop ends when the cursor was reached, when the raw page was
shorter than the requested size 50, or when a non-empty page admitted no
post. -/
def fetchPages (content : Nat → Option String) (lastPostId : Option Nat)
    (maxPosts : Nat) :
    List (List ListingPost) → Bool → Nat → List Post
  | [], _, _ => []
  | page :: rest, isFirstPage, totalFetched =>
    if maxPosts ≤ totalFetched then []
    else if page.length = 0 then []
    else
      let originalPostCount := page.length
      let pageTail := if isFirstPage then page.drop 1 else page
      let r := processPagePosts content lastPostId maxPosts pageTail totalFetched 0
      if r.2.2.2 then r.1
      else if originalPostCount < 50 ∨ (r.2.2.1 = 0 ∧ 0 < originalPostCount) then r.1
      else r.1 ++ fetchPages content lastPostId maxPosts rest false r.2.1

/-- getLatestPosts from refresh.ts: the full yielded sequence, as a list,
for a given remote page sequence, optional cursor and maximum count. -/
def getLatestPosts (content : Nat → Option String) (pages : List (List ListingPost))
    (lastPostId : Option Nat) (maxPosts : Nat) : List Post :=
  fetchPages content lastPostId maxPosts pages true 0

/-- The fixed daily budget of extraction calls (index.ts line 390). -/
def MAX_DAILY_API_CALLS : Nat := 240

/-- Rendering of the day part of the post creation date.  The source
computes creation_date.toISOString().split("T")[0]; the civil-date
formatting itself is not needed by any claim and is modelled as the
decimal day number since the epoch. -/
def isoDayOf (creationMs : Nat) : String :=
  toString (creationMs / 86400000)

/-- The provenance stamping of run (index.ts lines 472-488): each offer
returned by the Extraction Client is copied with every extracted field
defaulted to null when absent and the post id, title, date and timestamp
attached. -/
def stampOffer (post : Post) (offer : LeetParse.ParsedOffer) : ParsedOffer :=
  { company := offer.company
    role := offer.role
    yoe := offer.yoe
    base_offer := offer.base_offer
    total_offer := offer.total_offer
    location := offer.location
    visa_sponsorship := offer.visa_sponsorship
    post_id := some (toString post.id)
    post_title := some post.title
    post_date := some (isoDayOf post.creation_date)
    post_timestamp := some (post.creation_date : Int) }

/-- Outcome of one parsePost call as observed by run: the thrown
QUOTA_EXCEEDED error, a normal return (null or a list of offers), or any
other thrown error (which run catches and skips). -/
inductive ExtractOutcome where
  | quota
  | ok (offers : Option (List LeetParse.ParsedOffer))
  | failed
deriving DecidableEq, Repr

/-- The mutable counters and accumulator of run (index.ts lines 385-389). -/
structure RunState where
  processedCount : Nat
  successCount : Nat
  lastFetchedPostId : Option String
  apiCallCount : Nat
  newParsedOffers : List ParsedOffer
deriving DecidableEq, Repr

/-- The initial run state: zero counters, no last post, empty accumulator. -/
def initialRunState : RunState :=
  { processedCount := 0, successCount := 0, lastFetchedPostId := none
    apiCallCount := 0, newParsedOffers := [] }

/-- The fetch-extract loop of run (index.ts lines 430-508) over the posts
yielded by getLatestPosts.  Per post, in source order: if the call counter
has reached the daily cap, break; count the post as processed and record
its id as lastFetchedPostId; skip posts with negative votes without
spending a call; otherwise increment the call counter and call the
Extraction Client, whose quota-exhausted signal breaks the loop, whose
other failures are skipped, and whose non-empty offer lists are stamped
and accumulated. -/
def runLoop (outcome : Post → ExtractOutcome) :
    List Post → RunState → RunState
  | [], st => st
  | post :: rest, st =>
    if MAX_DAILY_API_CALLS ≤ st.apiCallCount then st
    else
      let st1 := { st with processedCount := st.processedCount + 1
                           lastFetchedPostId := some (toString post.id) }
      if post.vote_count < 0 then runLoop outcome rest st1
      else
        let st2 := { st1 with apiCallCount := st1.apiCallCount + 1 }
        match outcome post with
        | .quota => st2
        | .failed => runLoop outcome rest st2
        | .ok parsedOffers =>
          match parsedOffers with
          | some offers =>
            if 0 < offers.length then
              runLoop outcome rest
                { st2 with successCount := st2.successCount + 1
                           newParsedOffers :=
                             st2.newParsedOffers ++ offers.map (stampOffer post) }
            else runLoop outcome rest st2
          | none => runLoop outcome rest st2

/-- The metadata record written by saveData (index.ts lines 311-316):
the last fetched post id, the wall-clock save time and the dataset size. -/
structure Metadata where
  lastPostId : String
  lastFetchTime : Int
  totalOffers : Nat
deriving DecidableEq, Repr

/-- The externally visible effects of one saveData call. -/
structure SaveEffects where
  localDatasetSaved : Bool
  gistDatasetSaved : Bool
  localMetadata : Option Metadata
  gistMetadata : Option Metadata
deriving DecidableEq, Repr

/-- saveData from index.ts (lines 165-358).  localWriteOk models whether
the local dataset writeFile succeeds; its failure is caught and logged
(line 185), after which execution continues.  gistConfigured models
GIST_ID and GITHUB_TOKEN both being set and gistWriteOk the whole
best-effort mirror (access check plus PATCH) succeeding.  The metadata
file is written only when lastFetchedPostId is defined (line 311),
regardless of the outcome of the dataset save; metadataWriteOk models its
own writeFile succeeding.  now models Date.now() at the metadata build. -/
def saveData (allOffers : List ParsedOffer) (lastFetchedPostId : Option String)
    (localWriteOk : Bool) (gistConfigured : Bool) (gistWriteOk : Bool)
    (metadataWriteOk : Bool) (now : Int) : SaveEffects :=
  let localDatasetSaved := localWriteOk
  let gistDatasetSaved := gistConfigured && gistWriteOk
  match lastFetchedPostId with
  | none =>
    { localDatasetSaved := localDatasetSaved, gistDatasetSaved := gistDatasetSaved
      localMetadata := none, gistMetadata := none }
  | some pid =>
    let metadata : Metadata :=
      { lastPostId := pid, lastFetchTime := now, totalOffers := allOffers.length }
    { localDatasetSaved := localDatasetSaved
      gistDatasetSaved := gistDatasetSaved
      localMetadata := if metadataWriteOk then some metadata else none
      gistMetadata := if gistConfigured then some metadata else none }

/-! Helper lemmas shared by the claim theorems. -/

/-- Once the call counter has reached the daily cap, the loop is inert. -/
theorem runLoop_of_cap (outcome : Post → ExtractOutcome) (posts : List Post)
    (st : RunState) (h : MAX_DAILY_API_CALLS ≤ st.apiCallCount) :
    runLoop outcome posts st = st := by
  cases posts with
  | nil => rfl
  | cons p rest => rw [runLoop]; simp [h]

/-- The call counter never grows past the cap. -/
theorem runLoop_apiCallCount_le (outcome : Post → ExtractOutcome) (posts : List Post)
    (st : RunState) (h : st.apiCallCount ≤ MAX_DAILY_API_CALLS) :
    (runLoop outcome posts st).apiCallCount ≤ MAX_DAILY_API_CALLS := by
  induction posts generalizing st with
  | nil => simpa [runLoop] using h
  | cons p rest ih =>
    rw [runLoop]
    split
    · exact h
    · rename_i hlt
      split
      · exact ih _ (by simpa using h)
      · have hcap : st.apiCallCount + 1 ≤ MAX_DAILY_API_CALLS := by omega
        split
        · simpa using hcap
        · exact ih _ (by simpa using hcap)
        · split
          · split
            · exact ih _ (by simpa using hcap)
            · exact ih _ (by simpa using hcap)
          · exact ih _ (by simpa using hcap)

/-- With the counter preset to 239 and a first post with non-negative
votes, exactly one further call is spent and the counter ends at 240. -/
theorem runLoop_apiCallCount_preset239 (outcome : Post → ExtractOutcome)
    (posts : List Post) (st : RunState) (h239 : st.apiCallCount = 239)
    (hne : posts ≠ []) (hv : ∀ p ∈ posts, 0 ≤ p.vote_count) :
    (runLoop outcome posts st).apiCallCount = 240 := by
  cases posts with
  | nil => exact absurd rfl hne
  | cons p rest =>
    rw [runLoop]
    have hnotcap : ¬ MAX_DAILY_API_CALLS ≤ st.apiCallCount := by
      simp [MAX_DAILY_API_CALLS, h239]
    have hpv : ¬ p.vote_count < 0 := by
      have := hv p (by simp)
      omega
    simp only [if_neg hnotcap, if_neg hpv]
    have hcap : MAX_DAILY_API_CALLS ≤ st.apiCallCount + 1 := by
      simp [MAX_DAILY_API_CALLS, h239]
    split
    · simp [h239]
    · rw [runLoop_of_cap _ _ _ (by simpa using hcap)]; simp [h239]
    · split
      · split
        · rw [runLoop_of_cap _ _ _ (by simpa using hcap)]; simp [h239]
        · rw [runLoop_of_cap _ _ _ (by simpa using hcap)]; simp [h239]
      · rw [runLoop_of_cap _ _ _ (by simpa using hcap)]; simp [h239]

/-- Posts with negative votes spend no extraction call. -/
theorem runLoop_apiCallCount_negative (outcome : Post → ExtractOutcome)
    (posts : List Post) (st : RunState) (hv : ∀ p ∈ posts, p.vote_count < 0) :
    (runLoop outcome posts st).apiCallCount = st.apiCallCount := by
  induction posts generalizing st with
  | nil => rfl
  | cons p rest ih =>
    rw [runLoop]
    split
    · rfl
    · rw [if_pos (hv p (by simp))]
      exact ih _ (fun q hq => hv q (by simp [hq]))

/-- Every post yielded from one page has id strictly above the cursor. -/
theorem mem_processPagePosts (content : Nat → Option String) (c : Nat) (maxPosts : Nat)
    (lps : List ListingPost) :
    ∀ (totalFetched postsProcessed : Nat) (p : Post),
      p ∈ (processPagePosts content (some c) maxPosts lps totalFetched postsProcessed).1 →
      c < p.id := by
  induction lps with
  | nil => intro t pr p hp; simp [processPagePosts] at hp
  | cons lp0 rest ih =>
    intro t pr p hp
    rw [processPagePosts] at hp
    by_cases hmax : maxPosts ≤ t
    · simp [hmax] at hp
    · rw [if_neg hmax] at hp
      by_cases hc : lp0.id ≤ c
      · simp [hc] at hp
      · rw [if_neg (by simpa using hc)] at hp
        cases hcont : content lp0.id with
        | some body =>
          rw [hcont] at hp
          simp only [List.mem_cons] at hp
          rcases hp with hp | hp
          · subst hp
            show c < lp0.id
            omega
          · exact ih _ _ _ hp
        | none =>
          rw [hcont] at hp
          exact ih _ _ _ hp

/-- Every post yielded across the page loop has id strictly above the
cursor. -/
theorem mem_fetchPages (content : Nat → Option String) (c : Nat) (maxPosts : Nat)
    (pages : List (List ListingPost)) :
    ∀ (isFirstPage : Bool) (totalFetched : Nat) (p : Post),
      p ∈ fetchPages content (some c) maxPosts pages isFirstPage totalFetched →
      c < p.id := by
  induction pages with
  | nil => intro f t p hp; simp [fetchPages] at hp
  | cons page rest ih =>
    intro f t p hp
    rw [fetchPages] at hp
    dsimp only at hp
    split_ifs at hp
    all_goals first
      | exact (List.not_mem_nil p hp).elim
      | exact mem_processPagePosts content c maxPosts _ _ _ _ hp
      | (rcases List.mem_append.mp hp with hp | hp
         · exact mem_processPagePosts content c maxPosts _ _ _ _ hp
         · exact ih _ _ _ hp)

/-! Concrete fixtures used by counterexamples and witnesses. -/

/-- A stamped offer from post 7 with total 30. -/
def sampleOfferA : ParsedOffer :=
  ⟨some "Acme", some "SWE", none, none, some 30, none, none, some "7",
    some "offer thread", none, none⟩

/-- An offer identical to sampleOfferA on company, role, total_offer and
post_id but with a different post title, hence a different record. -/
def sampleOfferB : ParsedOffer :=
  ⟨some "Acme", some "SWE", none, none, some 30, none, none, some "7",
    some "second thread", none, none⟩

/-- An offer whose company contains a hyphen: company A-B, role C. -/
def collideOfferA : ParsedOffer :=
  ⟨some "A-B", some "C", none, none, some 30, none, none, some "9",
    none, none, none⟩

/-- An offer componentwise different from collideOfferA (company A,
role B-C) whose key string nevertheless coincides. -/
def collideOfferB : ParsedOffer :=
  ⟨some "A", some "B-C", none, none, some 30, none, none, some "9",
    none, none, none⟩

/-- A listing item with the given id and non-negative votes. -/
def listingOfId (n : Nat) : ListingPost :=
  ⟨n, "compensation thread", 1, 0, 0, 0⟩

/-- A body-fetch oracle on which every per-post content request succeeds. -/
def bodyAvailable : Nat → Option String := fun _ => some "post body"

/-- A yielded post with the given id and non-negative votes. -/
def postOfId (n : Nat) : Post :=
  ⟨n, "compensation thread", "post body", 1, 0, 0, 0⟩

/-- A post with negative votes. -/
def negVotePost : Post :=
  ⟨50, "downvoted thread", "post body", -3, 0, 0, 0⟩

/-- An extraction oracle that always returns null (no offers found). -/
def extractNone : Post → ExtractOutcome := fun _ => .ok none

/-- The run state with the call counter preset to 239. -/
def preset239 : RunState :=
  { initialRunState with apiCallCount := 239 }

/-- The all-null extracted offer. -/
def offerNullAll : LeetParse.ParsedOffer :=
  ⟨none, none, none, none, none, none, none⟩

/-- An extracted offer with only the company name set. -/
def offerOnlyCompany : LeetParse.ParsedOffer :=
  ⟨some "Google", none, none, none, none, none, none⟩

/-- An extracted offer with only the total compensation set. -/
def offerOnlyTotal : LeetParse.ParsedOffer :=
  ⟨none, none, none, none, some 30, none, none⟩

/-! Claim theorems. -/

/-- Claim C1, counterexample.  Two distinct newly accumulated offers that
agree on all four key fields (company, role, total compensation, source
post id) are both retained by the Saving-step merge: the filter only
compares new offers against the keys of loaded existing offers, never
against each other, so the merged dataset does contain two offers equal
on the composite key, refuting the claim. -/
theorem c1_counterexample :
    mergeOffers [] [sampleOfferA, sampleOfferB] = [sampleOfferA, sampleOfferB]
  ∧ sampleOfferA.company = sampleOfferB.company
  ∧ sampleOfferA.role = sampleOfferB.role
  ∧ sampleOfferA.total_offer = sampleOfferB.total_offer
  ∧ sampleOfferA.post_id = sampleOfferB.post_id
  ∧ sampleOfferA ≠ sampleOfferB := by
  refine ⟨rfl, rfl, rfl, rfl, rfl, ?_⟩
  decide

/-- Claim C1, amended.  In every Saving step an offer is in the merged
dataset exactly when it is a loaded existing offer, or a newly
accumulated offer whose composite key differs from the key of every
existing offer: new offers are deduplicated only against the existing
dataset, and duplicates within the new batch (or already present in the
existing dataset) are retained. -/
theorem c1_merge_membership (existingOffers newOffers : List ParsedOffer)
    (o : ParsedOffer) :
    o ∈ mergeOffers existingOffers newOffers ↔
      o ∈ existingOffers ∨
        (o ∈ newOffers ∧ offerKey o ∉ existingOffers.map offerKey) := by
  simp [mergeOffers, uniqueNewOffers, List.mem_filter]

/-- Claim C2, counterexample.  A run that processes the two posts 105 and
104 (yielded newest-first) ends with lastFetchedPostId 104, the id of the
last iterated (lowest-id) post, and the Cursor persisted by saveData
records 104, not the highest processed id 105. -/
theorem c2_counterexample :
    (runLoop extractNone [postOfId 105, postOfId 104] initialRunState).processedCount = 2
  ∧ (runLoop extractNone [postOfId 105, postOfId 104] initialRunState).lastFetchedPostId
      = some "104"
  ∧ (saveData []
        (runLoop extractNone [postOfId 105, postOfId 104] initialRunState).lastFetchedPostId
        true false false true 0).localMetadata
      = some { lastPostId := "104", lastFetchTime := 0, totalOffers := 0 }
  ∧ ("104" : String) ≠ "105" := by
  refine ⟨rfl, rfl, rfl, ?_⟩
  decide

/-- Claim C2, amended.  For every run that avoids the budget break and the
quota signal, the Cursor value is the id of the last post iterated in the
run; since posts are yielded newest-first this is the lowest-id post
processed, not the highest. -/
theorem c2_cursor_last_iterated (outcome : Post → ExtractOutcome)
    (posts : List Post) (st : RunState)
    (hbudget : st.apiCallCount + posts.length ≤ MAX_DAILY_API_CALLS)
    (hq : ∀ p ∈ posts, outcome p ≠ .quota) :
    (runLoop outcome posts st).lastFetchedPostId =
      (match posts.getLast? with
       | some p => some (toString p.id)
       | none => st.lastFetchedPostId) := by
  induction posts generalizing st with
  | nil => rfl
  | cons p rest ih =>
    rw [runLoop]
    have hnotcap : ¬ MAX_DAILY_API_CALLS ≤ st.apiCallCount := by
      simp at hbudget ⊢
      omega
    rw [if_neg hnotcap]
    have hlast : (p :: rest).getLast? =
        (match rest.getLast? with
         | some q => some q
         | none => some p) := by
      cases rest with
      | nil => rfl
      | cons q tail =>
        rw [List.getLast?_cons_cons]
        cases h : (q :: tail).getLast? with
        | none => simp at h
        | some r => rfl
    split
    · rw [ih _ (by simp at hbudget ⊢; omega) (fun q hq2 => hq q (by simp [hq2]))]
      rw [hlast]
      cases rest.getLast? <;> rfl
    · have hrec : ∀ st2 : RunState, st2.apiCallCount = st.apiCallCount + 1 →
          st2.lastFetchedPostId = some (toString p.id) →
          (runLoop outcome rest st2).lastFetchedPostId =
            (match (p :: rest).getLast? with
             | some q => some (toString q.id)
             | none => st.lastFetchedPostId) := by
        intro st2 hc hl
        rw [ih _ (by simp at hbudget ⊢; omega) (fun q hq2 => hq q (by simp [hq2]))]
        rw [hlast]
        cases rest.getLast? with
        | none => simpa using hl
        | some r => rfl
      split
      · rename_i houtcome
        exact absurd houtcome (hq p (by simp))
      · exact hrec _ rfl rfl
      · split
        · split
          · exact hrec _ rfl rfl
          · exact hrec _ rfl rfl
        · exact hrec _ rfl rfl

/-- Witness for c2_cursor_last_iterated at a concrete run over posts 105
and 104. -/
theorem c2_cursor_last_iterated_witness :
    (runLoop extractNone [postOfId 105, postOfId 104] initialRunState).lastFetchedPostId
      = some "104" := by
  have h := c2_cursor_last_iterated extractNone [postOfId 105, postOfId 104]
    initialRunState (by decide) (by decide)
  simpa using h

/-- Claim C3, counterexample.  On a first fetched page with post ids
105, 104, 103, 102 and cursor 103, the Post Source Client first discards
the leading element 105 as the pinned post, so it yields only post 104
rather than exactly posts 105 and 104. -/
theorem c3_counterexample :
    (getLatestPosts bodyAvailable
        [[listingOfId 105, listingOfId 104, listingOfId 103, listingOfId 102]]
        (some 103) 2000).map Post.id = [104]
  ∧ (getLatestPosts bodyAvailable
        [[listingOfId 105, listingOfId 104, listingOfId 103, listingOfId 102]]
        (some 103) 2000).map Post.id ≠ [105, 104] := by
  refine ⟨rfl, ?_⟩
  decide

/-- Claim C3, amended.  Every post yielded by the Post Source Client has
numeric id strictly greater than the cursor id (a post at or below the
cursor stops the iteration); on a first fetched page whose posts after
the pinned-post discard are 105, 104, 103, 102 (raw page
106, 105, 104, 103, 102) with cursor 103, the client yields exactly
posts 105 and 104. -/
theorem c3_cursor_boundary :
    (∀ (content : Nat → Option String) (pages : List (List ListingPost))
        (c maxPosts : Nat) (p : Post),
        p ∈ getLatestPosts content pages (some c) maxPosts → c < p.id)
  ∧ (getLatestPosts bodyAvailable
        [[listingOfId 106, listingOfId 105, listingOfId 104, listingOfId 103,
          listingOfId 102]] (some 103) 2000).map Post.id = [105, 104] := by
  refine ⟨?_, rfl⟩
  intro content pages c maxPosts p hp
  exact mem_fetchPages content c maxPosts pages true 0 p hp

/-- Witness for the universally quantified part of c3_cursor_boundary at
the concrete yielded post 104. -/
theorem c3_cursor_boundary_witness : (103 : Nat) < (postOfId 104).id :=
  c3_cursor_boundary.1 bodyAvailable
    [[listingOfId 106, listingOfId 105, listingOfId 104, listingOfId 103,
      listingOfId 102]] 103 2000 (postOfId 104) (by decide)

/-- Claim C4, confirmed.  If the very first model call for a post fails
with HTTP 429 carrying a quota-exceeded payload, parsePost raises the
distinguished QUOTA_EXCEEDED condition immediately, with zero retries
(and hence zero backoff sleeps) performed. -/
theorem c4_quota_first_attempt (call : Nat → LeetParse.CallResult)
    (decode : String → Option (List LeetParse.ParsedOffer))
    (retryDelay : Option Nat)
    (h : call 0 = .rateLimited true retryDelay) :
    LeetParse.parsePost call decode 0 = (.quotaExceeded, []) := by
  rw [LeetParse.parsePost, h]
  simp

/-- Witness for c4_quota_first_attempt at a concrete call oracle. -/
theorem c4_quota_first_attempt_witness :
    LeetParse.parsePost (fun _ => .rateLimited true none) (fun _ => none) 0
      = (.quotaExceeded, []) :=
  c4_quota_first_attempt (fun _ => .rateLimited true none) (fun _ => none) none rfl

/-- Claim C5, confirmed.  When every attempt fails with an ordinary
(non-quota) 429, parsePost retries exactly three times with backoff
delays 2, 4, 8 seconds (2 * 2 ^ attempt) and then returns null; when the
429 carries a server-suggested retry delay, that delay is slept instead
of the exponential one on each retry. -/
theorem c5_rate_limit_backoff (call callS : Nat → LeetParse.CallResult)
    (decode : String → Option (List LeetParse.ParsedOffer)) (d : Nat → Nat)
    (h : ∀ k, k ≤ 3 → call k = .rateLimited false none)
    (hS : ∀ k, k ≤ 3 → callS k = .rateLimited false (some (d k))) :
    LeetParse.parsePost call decode 0 = (.result none, [2, 4, 8])
  ∧ LeetParse.parsePost callS decode 0 = (.result none, [d 0, d 1, d 2]) := by
  constructor
  · have h0 := h 0 (by omega)
    have h1 := h 1 (by omega)
    have h2 := h 2 (by omega)
    have h3 := h 3 (by omega)
    rw [LeetParse.parsePost, h0]
    rw [LeetParse.parsePost, h1]
    rw [LeetParse.parsePost, h2]
    rw [LeetParse.parsePost, h3]
    simp
  · have h0 := hS 0 (by omega)
    have h1 := hS 1 (by omega)
    have h2 := hS 2 (by omega)
    have h3 := hS 3 (by omega)
    rw [LeetParse.parsePost, h0]
    rw [LeetParse.parsePost, h1]
    rw [LeetParse.parsePost, h2]
    rw [LeetParse.parsePost, h3]
    simp

/-- Witness for c5_rate_limit_backoff at concrete call oracles: always
ordinary 429 without, and with, a server-suggested delay of 7 seconds. -/
theorem c5_rate_limit_backoff_witness :
    LeetParse.parsePost (fun _ => .rateLimited false none) (fun _ => none) 0
      = (.result none, [2, 4, 8])
  ∧ LeetParse.parsePost (fun _ => .rateLimited false (some 7)) (fun _ => none) 0
      = (.result none, [7, 7, 7]) :=
  c5_rate_limit_backoff (fun _ => .rateLimited false none)
    (fun _ => .rateLimited false (some 7)) (fun _ => none) (fun _ => 7)
    (fun _ _ => rfl) (fun _ _ => rfl)

/-- Claim C6, confirmed.  The extraction-call counter of the Orchestrator
loop never exceeds the fixed daily budget 240: from any state within
budget it stays within budget; with the counter preset to 239 and a
non-empty sequence of posts with non-negative votes, exactly one more
extraction call is made (the counter ends at exactly 240) and iteration
then stops; and posts skipped for negative vote count spend no call. -/
theorem c6_daily_budget_cap (outcome : Post → ExtractOutcome)
    (posts : List Post) (st : RunState) :
    (st.apiCallCount ≤ MAX_DAILY_API_CALLS →
      (runLoop outcome posts st).apiCallCount ≤ MAX_DAILY_API_CALLS)
  ∧ (st.apiCallCount = 239 → posts ≠ [] → (∀ p ∈ posts, 0 ≤ p.vote_count) →
      (runLoop outcome posts st).apiCallCount = 240)
  ∧ ((∀ p ∈ posts, p.vote_count < 0) →
      (runLoop outcome posts st).apiCallCount = st.apiCallCount) :=
  ⟨runLoop_apiCallCount_le outcome posts st,
   runLoop_apiCallCount_preset239 outcome posts st,
   runLoop_apiCallCount_negative outcome posts st⟩

/-- Witness for c6_daily_budget_cap: a run preset at 239 over one
non-negative-vote post ends at exactly 240, and a run over one
negative-vote post spends no call. -/
theorem c6_daily_budget_cap_witness :
    (runLoop extractNone [postOfId 105] preset239).apiCallCount ≤ MAX_DAILY_API_CALLS
  ∧ (runLoop extractNone [postOfId 105] preset239).apiCallCount = 240
  ∧ (runLoop extractNone [negVotePost] initialRunState).apiCallCount = 0 :=
  ⟨(c6_daily_budget_cap extractNone [postOfId 105] preset239).1 (by decide),
   (c6_daily_budget_cap extractNone [postOfId 105] preset239).2.1 rfl
     (by decide) (by decide),
   (c6_daily_budget_cap extractNone [negVotePost] initialRunState).2.2 (by decide)⟩

/-- Claim C7, confirmed.  Over the offer domain described by the data
model (a company name is a non-empty string when present, compensation
amounts are positive when present), the validity filter accepts an offer
exactly when it has a company name or at least one of base and total
compensation present; the all-null offer is rejected, an offer with only
a company is accepted, and an offer with only a total is accepted. -/
theorem c7_validity_filter (o : LeetParse.ParsedOffer)
    (hc : ∀ s, o.company = some s → s ≠ "")
    (hb : ∀ x, o.base_offer = some x → 0 < x)
    (ht : ∀ x, o.total_offer = some x → 0 < x) :
    (LeetParse.isValidOffer o = true ↔
      (o.company ≠ none ∨ o.base_offer ≠ none ∨ o.total_offer ≠ none))
  ∧ LeetParse.isValidOffer offerNullAll = false
  ∧ LeetParse.isValidOffer offerOnlyCompany = true
  ∧ LeetParse.isValidOffer offerOnlyTotal = true := by
  refine ⟨?_, rfl, rfl, rfl⟩
  rcases o with ⟨c, r, y, b, t, l, v⟩
  simp only [LeetParse.isValidOffer, LeetParse.truthyStr, LeetParse.truthyNum] at *
  cases c <;> cases b <;> cases t <;> simp_all <;> omega

/-- Witness for c7_validity_filter at the offer with only a total set. -/
theorem c7_validity_filter_witness :
    (LeetParse.isValidOffer offerOnlyTotal = true ↔
      (offerOnlyTotal.company ≠ none ∨ offerOnlyTotal.base_offer ≠ none ∨
        offerOnlyTotal.total_offer ≠ none))
  ∧ LeetParse.isValidOffer offerNullAll = false
  ∧ LeetParse.isValidOffer offerOnlyCompany = true
  ∧ LeetParse.isValidOffer offerOnlyTotal = true :=
  c7_validity_filter offerOnlyTotal
    (fun s h => by simp [offerOnlyTotal] at h)
    (fun x h => by simp [offerOnlyTotal] at h)
    (fun x h => by simp [offerOnlyTotal] at h; omega)

/-- Claim C8, counterexample.  When the local dataset write fails, the
failure is caught and swallowed and the Cursor metadata file is written
anyway: saveData with a failing dataset write still records the Cursor,
refuting the part of the claim stating it is not written on a failed
dataset save. -/
theorem c8_counterexample :
    (saveData [sampleOfferA] (some "7") false false false true 12345).localDatasetSaved
      = false
  ∧ (saveData [sampleOfferA] (some "7") false false false true 12345).localMetadata
      = some { lastPostId := "7", lastFetchTime := 12345, totalOffers := 1 } :=
  ⟨rfl, rfl⟩

/-- Claim C8, amended.  On every saveData call the Cursor file is written
exactly when a last-fetched post id is present (and its own write
succeeds), regardless of whether the Dataset save succeeded; when
written it is tagged with the save wall-clock time and the resulting
Dataset size; when no post id was recorded it is not written. -/
theorem c8_cursor_write (allOffers : List ParsedOffer) (pid : String)
    (localWriteOk gistConfigured gistWriteOk metadataWriteOk : Bool) (now : Int) :
    (saveData allOffers (some pid) localWriteOk gistConfigured gistWriteOk
        true now).localMetadata
      = some { lastPostId := pid, lastFetchTime := now,
               totalOffers := allOffers.length }
  ∧ (saveData allOffers none localWriteOk gistConfigured gistWriteOk
        metadataWriteOk now).localMetadata = none
  ∧ (saveData allOffers (some pid) false gistConfigured gistWriteOk
        metadataWriteOk now).localMetadata
      = (saveData allOffers (some pid) true gistConfigured gistWriteOk
          metadataWriteOk now).localMetadata :=
  ⟨rfl, rfl, rfl⟩

/-- Claim C9, confirmed.  The duplicate-detection key is a single
hyphen-joined string, so the componentwise-different offers with company
A-B, role C and company A, role B-C (equal total and post id) collide on
the key, and the merge drops the later one even though it is not a
componentwise duplicate. -/
theorem c9_key_collision :
    offerKey collideOfferA = offerKey collideOfferB
  ∧ collideOfferA.company ≠ collideOfferB.company
  ∧ collideOfferA.role ≠ collideOfferB.role
  ∧ mergeOffers [collideOfferA] [collideOfferB] = [collideOfferA] := by
  refine ⟨rfl, ?_, ?_, rfl⟩ <;> decide

/-- Claim C10, confirmed.  The validity filter tests fields by JS
truthiness: an offer whose company is the empty string and whose base and
total compensation are 0 (all present and non-null) is rejected, with the
same verdict as if those three fields were absent, whatever the remaining
fields are. -/
theorem c10_truthiness_rejection (role : Option String) (yoe : Option Int)
    (location : Option String) (visa : Option LeetParse.Visa) :
    LeetParse.isValidOffer ⟨some "", role, yoe, some 0, some 0, location, visa⟩
      = false
  ∧ LeetParse.isValidOffer ⟨some "", role, yoe, some 0, some 0, location, visa⟩
      = LeetParse.isValidOffer ⟨none, role, yoe, none, none, location, visa⟩ :=
  ⟨rfl, rfl⟩
